import Mathlib

set_option autoImplicit false

namespace MapproxyApi

/-!
Shallow embedding of `mapproxy/service/api.py`: the REST dispatcher
(`ApiServer.handle`), the handler base class (`IHandler`), and the three
concrete handlers (`ConfigHandler`, `ConfigPackListHandler`,
`ConfigPackHandler`).  External collaborators (the YAML/JSON parser and
serializer, `validate_mapproxy_conf`, `ProxyConfiguration`, the `Response`
class and the request object) are modelled at their interfaces; everything
else is translated line by line from the source.
-/

/--
Structured values as produced by `yaml.safe_load` and consumed by `yaml.dump` /
`json.dumps` in api.py: the configuration document, request bodies and
response payloads are all such values.  Python `None` and JSON `null` are the
same object and are both represented by `.null`; mappings are association
lists with unique keys, in insertion order (Python dicts).
-/
inductive JVal where
  | null : JVal
  | bool : Bool → JVal
  | num : Int → JVal
  | str : String → JVal
  | arr : List JVal → JVal
  | obj : List (String × JVal) → JVal
deriving Repr, Inhabited

mutual

/-- Structural decidable equality for `JVal` (Python `==` on parsed YAML/JSON data). -/
def decEqJ : (a b : JVal) → Decidable (a = b)
  | .null, .null => isTrue rfl
  | .bool a, .bool b =>
      if h : a = b then isTrue (by rw [h]) else isFalse (fun k => h (by cases k; rfl))
  | .num a, .num b =>
      if h : a = b then isTrue (by rw [h]) else isFalse (fun k => h (by cases k; rfl))
  | .str a, .str b =>
      if h : a = b then isTrue (by rw [h]) else isFalse (fun k => h (by cases k; rfl))
  | .arr a, .arr b =>
      match decEqL a b with
      | isTrue h => isTrue (by rw [h])
      | isFalse h => isFalse (fun k => h (by cases k; rfl))
  | .obj a, .obj b =>
      match decEqF a b with
      | isTrue h => isTrue (by rw [h])
      | isFalse h => isFalse (fun k => h (by cases k; rfl))
  | .null, .bool _ => isFalse (fun k => nomatch k)
  | .null, .num _ => isFalse (fun k => nomatch k)
  | .null, .str _ => isFalse (fun k => nomatch k)
  | .null, .arr _ => isFalse (fun k => nomatch k)
  | .null, .obj _ => isFalse (fun k => nomatch k)
  | .bool _, .null => isFalse (fun k => nomatch k)
  | .bool _, .num _ => isFalse (fun k => nomatch k)
  | .bool _, .str _ => isFalse (fun k => nomatch k)
  | .bool _, .arr _ => isFalse (fun k => nomatch k)
  | .bool _, .obj _ => isFalse (fun k => nomatch k)
  | .num _, .null => isFalse (fun k => nomatch k)
  | .num _, .bool _ => isFalse (fun k => nomatch k)
  | .num _, .str _ => isFalse (fun k => nomatch k)
  | .num _, .arr _ => isFalse (fun k => nomatch k)
  | .num _, .obj _ => isFalse (fun k => nomatch k)
  | .str _, .null => isFalse (fun k => nomatch k)
  | .str _, .bool _ => isFalse (fun k => nomatch k)
  | .str _, .num _ => isFalse (fun k => nomatch k)
  | .str _, .arr _ => isFalse (fun k => nomatch k)
  | .str _, .obj _ => isFalse (fun k => nomatch k)
  | .arr _, .null => isFalse (fun k => nomatch k)
  | .arr _, .bool _ => isFalse (fun k => nomatch k)
  | .arr _, .num _ => isFalse (fun k => nomatch k)
  | .arr _, .str _ => isFalse (fun k => nomatch k)
  | .arr _, .obj _ => isFalse (fun k => nomatch k)
  | .obj _, .null => isFalse (fun k => nomatch k)
  | .obj _, .bool _ => isFalse (fun k => nomatch k)
  | .obj _, .num _ => isFalse (fun k => nomatch k)
  | .obj _, .str _ => isFalse (fun k => nomatch k)
  | .obj _, .arr _ => isFalse (fun k => nomatch k)

/-- Decidable equality for lists of values. -/
def decEqL : (a b : List JVal) → Decidable (a = b)
  | [], [] => isTrue rfl
  | [], _ :: _ => isFalse (fun k => nomatch k)
  | _ :: _, [] => isFalse (fun k => nomatch k)
  | x :: xs, y :: ys =>
      match decEqJ x y, decEqL xs ys with
      | isTrue h1, isTrue h2 => isTrue (by rw [h1, h2])
      | isFalse h1, _ => isFalse (fun k => h1 (by cases k; rfl))
      | _, isFalse h2 => isFalse (fun k => h2 (by cases k; rfl))

/-- Decidable equality for field lists of objects. -/
def decEqF : (a b : List (String × JVal)) → Decidable (a = b)
  | [], [] => isTrue rfl
  | [], _ :: _ => isFalse (fun k => nomatch k)
  | _ :: _, [] => isFalse (fun k => nomatch k)
  | (k1, v1) :: xs, (k2, v2) :: ys =>
      match String.decEq k1 k2, decEqJ v1 v2, decEqF xs ys with
      | isTrue h0, isTrue h1, isTrue h2 => isTrue (by rw [h0, h1, h2])
      | isFalse h0, _, _ => isFalse (fun k => h0 (by cases k; rfl))
      | _, isFalse h1, _ => isFalse (fun k => h1 (by cases k; rfl))
      | _, _, isFalse h2 => isFalse (fun k => h2 (by cases k; rfl))

end

instance : DecidableEq JVal := decEqJ

/--
A raised Python exception: either a `WebError` (api.py lines 20-27), which the
dispatcher turns into an HTTP response carrying `msg` and `status_code`, or
any other exception (`KeyError`, `TypeError`, `AttributeError`, ...) tagged
with a description; nothing in api.py catches the latter, so it propagates to
the transport layer as a server fault.
-/
inductive Fault where
  | web : String → Nat → Fault
  | py : String → Fault
deriving Repr, DecidableEq

/-- Result of running a piece of handler code: a value or a raised exception. -/
abbrev PyResult (α : Type) := Except Fault α

instance {ε α : Type} [DecidableEq ε] [DecidableEq α] : DecidableEq (Except ε α) :=
  fun a b =>
    match a, b with
    | .ok x, .ok y =>
        if h : x = y then isTrue (by rw [h]) else isFalse (fun k => h (by cases k; rfl))
    | .error x, .error y =>
        if h : x = y then isTrue (by rw [h]) else isFalse (fun k => h (by cases k; rfl))
    | .ok _, .error _ => isFalse (fun k => nomatch k)
    | .error _, .ok _ => isFalse (fun k => nomatch k)

/-- Sequencing of handler statements: a raised exception aborts the rest. -/
def pbind {α β : Type} : PyResult α → (α → PyResult β) → PyResult β
  | .error e, _ => .error e
  | .ok a, f => f a

/-- Lookup of a key in an object's field list (Python dict lookup). -/
def lookupField : List (String × JVal) → String → Option JVal
  | [], _ => none
  | (k, v) :: rest, key => if k = key then some v else lookupField rest key

/-- `d[key] = v` on a dict: replace the value in place, or append a new entry. -/
def setField : List (String × JVal) → String → JVal → List (String × JVal)
  | [], key, v => [(key, v)]
  | (k, w) :: rest, key, v =>
      if k = key then (k, v) :: rest else (k, w) :: setField rest key v

/-- `del d[key]` on a dict's field list: drop the entry carrying `key`. -/
def eraseField : List (String × JVal) → String → List (String × JVal)
  | [], _ => []
  | (k, w) :: rest, key => if k = key then rest else (k, w) :: eraseField rest key

/-- Python subscript `v[key]` with a string key: dict lookup, `KeyError` when
the key is absent, `TypeError` on values that do not take string subscripts. -/
def pyIndex (v : JVal) (key : String) : PyResult JVal :=
  match v with
  | .obj fs =>
      match lookupField fs key with
      | some x => .ok x
      | none => .error (.py ("KeyError: " ++ key))
  | _ => .error (.py ("TypeError: value of " ++ key ++ " is not subscriptable"))

/-- Python `v.get(key, None)`: only dicts have `.get`; an absent key yields
`None`, and `None` stored under the key is indistinguishable from absence. -/
def pyGetD (v : JVal) (key : String) : PyResult JVal :=
  match v with
  | .obj fs => .ok ((lookupField fs key).getD .null)
  | _ => .error (.py "AttributeError: get")

/-- Python `key in v` for a string key: key test on dicts, membership on
lists, `TypeError` on the value kinds the handlers never reach. -/
def pyContains (v : JVal) (key : String) : PyResult Bool :=
  match v with
  | .obj fs => .ok (lookupField fs key).isSome
  | .arr xs => .ok (xs.contains (.str key))
  | _ => .error (.py "TypeError: argument not a container")

/-- Python item assignment `v[key] = x` with a string key (dicts only;
`TypeError` elsewhere, list indices must be integers). -/
def objSet (v : JVal) (key : String) (x : JVal) : PyResult JVal :=
  match v with
  | .obj fs => .ok (.obj (setField fs key x))
  | _ => .error (.py "TypeError: value does not support item assignment")

/-- Python `del v[key]` with a string key (dicts only). -/
def objDel (v : JVal) (key : String) : PyResult JVal :=
  match v with
  | .obj fs =>
      if (lookupField fs key).isSome then .ok (.obj (eraseField fs key))
      else .error (.py ("KeyError: " ++ key))
  | _ => .error (.py "TypeError: value does not support item deletion")

/-- View a value as a Python list, as `list.append` / `del lst[i]` require. -/
def asList (v : JVal) : PyResult (List JVal) :=
  match v with
  | .arr xs => .ok xs
  | _ => .error (.py "TypeError: value is not a list")

/-- Python `"%s" % v` string interpolation.  The handlers only ever format
strings this way (pack names); the rendering of composite values is
abbreviated here. -/
def pyStr : JVal → String
  | .null => "None"
  | .bool true => "True"
  | .bool false => "False"
  | .num n => toString n
  | .str s => s
  | .arr _ => "[...]"
  | .obj _ => "\x7b...\x7d"

/-- Python `v + suffix` string concatenation (api.py lines 265-266):
`TypeError` unless `v` is itself a string. -/
def pyStrConcat (v : JVal) (suffix : String) : PyResult String :=
  match v with
  | .str s => .ok (s ++ suffix)
  | _ => .error (.py "TypeError: cannot concatenate")

/--
Interface of the two external validation collaborators used by
`IHandler._validate_config`: `validate` is `validate_mapproxy_conf`, returning
the error list and the informal-only flag; `instantiate` is the
`ProxyConfiguration(config)` / `configured_services()` construction, returning
the `ConfigurationError` message when the document cannot be instantiated.
-/
structure Validator where
  validate : JVal → List String × Bool
  instantiate : JVal → Except String Unit

/-- `IHandler._validate_config` (api.py lines 149-166). -/
def validate_config (v : Validator) (config : JVal) : PyResult Unit :=
  let r := v.validate config
  if !r.2 || r.1.length > 0 then
    .error (.web (String.intercalate "\n" r.1) 400)
  else
    match v.instantiate config with
    | .error m => .error (.web ("Failed to update configuration:\n" ++ m) 404)
    | .ok _ => .ok ()

/-- Body of an HTTP response: `Response(text, ...)` on plain strings, or
`Response(json.dumps(data), ...)` via `_build_json_response` on a value. -/
inductive RBody where
  | text : String → RBody
  | json : JVal → RBody
deriving Repr, DecidableEq

/-- The `Response` object handed back to the transport layer (the `Response`
class itself is external; `status` defaults to 200, the success status of the
table in the spec). -/
structure Resp where
  body : RBody
  status : Nat
  contentType : Option String
deriving Repr, DecidableEq

/-- `IHandler._build_json_response` (api.py lines 144-146). -/
def jsonResponse (data : JVal) : Resp :=
  ⟨.json data, 200, some "application/json"⟩

/-- Inner loop of `PackHandler._find_layer` (api.py lines 205-208): enumerate
the layers from index `idx`, returning the first whose `"name"` equals
`name`. -/
def findLayerAux (name : JVal) : List JVal → Nat → PyResult (Int × JVal)
  | [], _ => .ok (-1, .null)
  | layer :: rest, idx =>
      pbind (pyIndex layer "name") fun lname =>
      if lname = name then .ok ((idx : Int), layer) else findLayerAux name rest (idx + 1)

/-- `PackHandler._find_layer` (api.py lines 200-208): linear scan of
`config["layers"]`; `(-1, None)` when no layer matches. -/
def find_layer (config : JVal) (name : JVal) : PyResult (Int × JVal) :=
  pbind (pyIndex config "layers") fun layersV =>
  pbind (asList layersV) fun layers =>
  findLayerAux name layers 0

/--
Outcome of one handler method: the response, and the document passed to
`IHandler._write_config` when the method persisted one (`_write_config` both
writes the document to disk and replaces the handler's cached copy with
exactly that value, so `some d` means `d` is now the persisted and the cached
document; `none` means the store is untouched).  A `.error` outcome is a
raised exception: nothing was written.
-/
abbrev HResult := PyResult (Resp × Option JVal)

/-- `ConfigHandler.get` (api.py lines 175-179). -/
def configGet (config : JVal) : HResult :=
  .ok (jsonResponse config, none)

/-- `ConfigHandler.put` (api.py lines 181-193); `content` is the parsed
request body. -/
def configPut (v : Validator) (config : JVal) (content : JVal) : HResult :=
  pbind (validate_config v content) fun _ =>
  .ok (jsonResponse content, some content)

/-- The `for part in ("cache", "source")` collision check of
`ConfigPackListHandler.post` (api.py lines 257-261). -/
def checkPartCollision (config : JVal) (packName : JVal) : List String → PyResult Unit
  | [] => .ok ()
  | part :: rest =>
      let key := pyStr packName ++ "_" ++ part
      pbind (pyIndex config (part ++ "s")) fun coll =>
      pbind (pyContains coll key) fun hit =>
      if hit then .error (.web ("Already have a " ++ part ++ " '" ++ key ++ "'") 400)
      else checkPartCollision config packName rest

/--
`ConfigPackListHandler.post` (api.py lines 234-282).  `config` is the lazily
loaded document, `content` the parsed request body.  The deep copy of the
source corresponds to the value semantics here: every mutation after the
precondition checks builds a new value, and the loaded `config` is never
changed.
-/
def post (v : Validator) (config : JVal) (content : JVal) : HResult :=
  if content = JVal.null then .error (.web "Invalid JSON" 400) else
  pbind (pyGetD content "layer") fun layer =>
  if layer = JVal.null then .error (.web "Missing 'layer' value." 400) else
  pbind (pyGetD layer "name") fun packName =>
  if packName = JVal.null then .error (.web "Missing 'name' for layer." 400) else
  pbind (find_layer config packName) fun found =>
  if found.2 ≠ JVal.null then
    .error (.web ("Already have a layer for '" ++ pyStr packName ++ "'") 400) else
  pbind (checkPartCollision config packName ["cache", "source"]) fun _ =>
  pbind (pyStrConcat packName "_cache") fun cacheName =>
  pbind (pyStrConcat packName "_source") fun sourceName =>
  pbind (objSet layer "sources" (.arr [.str cacheName])) fun layer2 =>
  pbind (pyIndex config "layers") fun layersV =>
  pbind (asList layersV) fun layersL =>
  pbind (objSet config "layers" (.arr (layersL ++ [layer2]))) fun c1 =>
  pbind (pyIndex content "cache") fun cache =>
  pbind (objSet cache "sources" (.arr [.str sourceName])) fun cache2 =>
  pbind (pyIndex c1 "caches") fun cachesV =>
  pbind (objSet cachesV cacheName cache2) fun caches2 =>
  pbind (objSet c1 "caches" caches2) fun c2 =>
  pbind (pyIndex content "source") fun source =>
  pbind (pyIndex c2 "sources") fun sourcesV =>
  pbind (objSet sourcesV sourceName source) fun sources2 =>
  pbind (objSet c2 "sources" sources2) fun c3 =>
  pbind (validate_config v c3) fun _ =>
  .ok (jsonResponse c3, some c3)

/-- The `for part in ("cache", "source")` lookup loop of
`ConfigPackHandler.get` (api.py lines 300-307), returning the `result` fields
and the `missing` names accumulated in iteration order. -/
def packGetLoop (config : JVal) (packName : String) :
    List String → PyResult (List (String × JVal) × List String)
  | [] => .ok ([], [])
  | part :: rest =>
      let key := packName ++ "_" ++ part
      pbind (pyIndex config (part ++ "s")) fun coll =>
      pbind (pyGetD coll key) fun value =>
      pbind (packGetLoop config packName rest) fun pr =>
      .ok ((part, value) :: pr.1, (if value = JVal.null then [part] else []) ++ pr.2)

/-- `ConfigPackHandler.get` (api.py lines 292-319); `packName` is the URL
capture group. -/
def packGet (config : JVal) (packName : String) : HResult :=
  pbind (packGetLoop config packName ["cache", "source"]) fun pr =>
  pbind (find_layer config (.str packName)) fun fl =>
  let fields := setField pr.1 "layer" fl.2
  let missing := if fl.2 = JVal.null then pr.2 ++ ["layer"] else pr.2
  if missing.length > 0 then
    .error (.web ("Missing '" ++ String.intercalate ", " missing ++ "'") 404)
  else .ok (jsonResponse (.obj fields), none)

/-- The `for part in ("cache", "source")` removal loop of
`ConfigPackHandler.delete` (api.py lines 340-346), acting on the working copy
`conf` and extending the `missing` list. -/
def deleteLoop (packName : String) :
    List String → JVal → List String → PyResult (JVal × List String)
  | [], conf, missing => .ok (conf, missing)
  | part :: rest, conf, missing =>
      let key := part ++ "s"
      let name := packName ++ "_" ++ part
      pbind (pyIndex conf key) fun coll =>
      pbind (pyContains coll name) fun hit =>
      if hit then
        pbind (objDel coll name) fun coll2 =>
        pbind (objSet conf key coll2) fun conf2 =>
        deleteLoop packName rest conf2 missing
      else deleteLoop packName rest conf (missing ++ [part])

/--
`ConfigPackHandler.delete` (api.py lines 321-358).  As in `post`, the deep
copy of the source corresponds to value semantics: the layer removal and the
loop mutate only the working value, and a raised `WebError` discards it, so
the loaded document and the store are untouched on every failure path.
-/
def packDelete (v : Validator) (config : JVal) (packName : String) : HResult :=
  pbind (find_layer config (.str packName)) fun fl =>
  pbind
    (if fl.1 < 0 then .ok (config, ["layer"])
     else
       pbind (pyIndex config "layers") fun layersV =>
       pbind (asList layersV) fun xs =>
       pbind (objSet config "layers" (.arr (xs.eraseIdx fl.1.toNat))) fun c1 =>
       .ok (c1, ([] : List String))) fun st =>
  pbind (deleteLoop packName ["cache", "source"] st.1 st.2) fun st2 =>
  if st2.2.length > 0 then
    .error (.web ("Missing '" ++ String.intercalate ", " st2.2 ++ "'") 404)
  else
  pbind (validate_config v st2.1) fun _ =>
  .ok (⟨.text "", 200, none⟩, some st2.1)

/-- Hexadecimal digit value, as `urllib`'s quoting table accepts it. -/
def hexVal (c : Char) : Option Nat :=
  if '0' ≤ c ∧ c ≤ '9' then some (c.toNat - '0'.toNat)
  else if 'a' ≤ c ∧ c ≤ 'f' then some (c.toNat - 'a'.toNat + 10)
  else if 'A' ≤ c ∧ c ≤ 'F' then some (c.toNat - 'A'.toNat + 10)
  else none

/-- Percent-decoding of `urllib.unquote` (Python 2): `%` followed by two hex
digits becomes the coded character, a malformed escape is kept verbatim. -/
def unquoteChars : List Char → List Char
  | [] => []
  | '%' :: a :: b :: rest =>
      (match hexVal a, hexVal b with
       | some hi, some lo => Char.ofNat (16 * hi + lo) :: unquoteChars rest
       | _, _ => '%' :: unquoteChars (a :: b :: rest))
  | c :: rest => c :: unquoteChars rest

/-- `urllib.unquote_plus` (external, Python 2 stdlib): replace `+` by a
space, then percent-decode. -/
def unquote_plus (s : String) : String :=
  String.mk (unquoteChars (s.toList.map fun c => if c = '+' then ' ' else c))

/-- Modelled from the spec: `req.pop_path` of the external request object
"removes a leading fixed segment from the path (the API mount point)" - it
drops the leading slash and the first path segment, leaving the remainder
from its slash on. -/
def popPath (p : String) : String :=
  let cs :=
    match p.toList with
    | '/' :: rest => rest
    | cs => cs
  String.mk (cs.dropWhile fun c => c ≠ '/')

/--
The compiled pattern `"^/config$"` of `ConfigHandler.sUrlRegEx` under Python
`re.match` semantics: `$` matches at the end of the string or just before a
single trailing newline.  `some groups` is a match of the whole path with its
captures.
-/
def matchConfig (p : String) : Option (List String) :=
  if p = "/config" ∨ p = "/config\n" then some [] else none

/-- The compiled pattern `"^/config/pack$"` of
`ConfigPackListHandler.sUrlRegEx`, as in `matchConfig`. -/
def matchPackList (p : String) : Option (List String) :=
  if p = "/config/pack" ∨ p = "/config/pack\n" then some [] else none

/-- The characters of the fixed part of `ConfigPackHandler.sUrlRegEx`. -/
def packItemHead : List Char := "/config/pack/".toList

/--
The compiled pattern `"^/config/pack/(.+)$"` of `ConfigPackHandler.sUrlRegEx`
under Python `re.match` semantics: `.` matches any character except a
newline, so the greedy `(.+)` group takes the whole remainder when it is
newline-free, excludes a single trailing newline (which `$` absorbs), and the
pattern fails on an empty remainder or one with a newline elsewhere.
-/
def matchPackItem (p : String) : Option (List String) :=
  let cs := p.toList
  if cs.take packItemHead.length = packItemHead then
    let rest := cs.drop packItemHead.length
    let g := if rest.getLast? = some '\n' then rest.dropLast else rest
    if g ≠ [] ∧ '\n' ∉ g then some [String.mk g] else none
  else none

/-- The three concrete handler classes of api.py that declare a URL pattern. -/
inductive HandlerId where
  | configHandler
  | configPackHandler
  | configPackListHandler
deriving Repr, DecidableEq

/--
The pattern table `ApiServer._handlers` built by `ApiServer.__init__` (api.py
lines 50-65) from `get_handlers()`: `inspect.getmembers` enumerates the
module's classes sorted by class name, so the registration order is
`ConfigHandler`, `ConfigPackHandler`, `ConfigPackListHandler` (the classes
with `sUrlRegEx = None` are skipped); each pattern is anchored with `^` and
`$` and compiled.
-/
def handlerTable : List ((String → Option (List String)) × HandlerId) :=
  [(matchConfig, .configHandler),
   (matchPackItem, .configPackHandler),
   (matchPackList, .configPackListHandler)]

/-- The pattern scan of `ApiServer.handle` (api.py lines 78-83): first match
in registration order wins, yielding the handler and the capture groups. -/
def findHandler :
    List ((String → Option (List String)) × HandlerId) → String →
    Option (HandlerId × List String)
  | [], _ => none
  | (pat, h) :: rest, p =>
      match pat p with
      | some gs => some (h, gs)
      | none => findHandler rest p

/-- The attribute names each instantiated handler exposes to
`getattr(handler, http_method.lower(), None)`: the methods and attributes
defined on `IHandler` and inherited by every variant. -/
def baseAttrs : List String :=
  ["sUrlRegEx", "_config_path", "_config_data", "_get_config", "_config",
   "_write_config", "_get_json_content", "_build_json_response", "_validate_config"]

/-- Attribute names per handler class (its own methods plus the inherited
ones). -/
def handlerAttrs : HandlerId → List String
  | .configHandler => ["get", "put"] ++ baseAttrs
  | .configPackHandler => ["get", "delete", "_find_layer"] ++ baseAttrs
  | .configPackListHandler => ["post", "_find_layer"] ++ baseAttrs

/-- `found_method(req, *groups)` (api.py line 98): dispatch of the resolved
verb method on the resolved handler.  A verb naming a helper attribute calls
it with a request argument it does not accept, a `TypeError`. -/
def invokeMethod (v : Validator) (config : JVal) (content : JVal) :
    HandlerId → String → List String → HResult
  | .configHandler, "get", [] => configGet config
  | .configHandler, "put", [] => configPut v config content
  | .configPackListHandler, "post", [] => post v config content
  | .configPackHandler, "get", [name] => packGet config name
  | .configPackHandler, "delete", [name] => packDelete v config name
  | _, _, _ => .error (.py "TypeError: not a request method")

/-- Python `str.lower()` (external stdlib) applied to the HTTP verb
(api.py line 91); the verbs are ASCII. -/
def pyLower (s : String) : String :=
  String.mk (s.toList.map fun c => if 'A' ≤ c ∧ c ≤ 'Z' then Char.ofNat (c.toNat + 32) else c)

/-- The parts of the WSGI request object that api.py reads: the raw URL path,
`environ["REQUEST_METHOD"]` (absent means `"GET"`, api.py line 90), and the
request body as parsed by `_get_json_content`. -/
structure Req where
  path : String
  reqMethod : Option String
  content : JVal

/--
`ApiServer.handle` (api.py lines 67-100): strip the mount segment, percent
decode, scan the pattern table, 404 with `"Not found"` when nothing matches,
405 with `"Not allowed"` when the handler lacks the verb attribute, otherwise
invoke the method, converting a raised `WebError` into a response.  The
`Except String` error is an exception nothing catches (a server fault for the
transport layer).
-/
def handle (v : Validator) (config : JVal) (req : Req) :
    Except String (Resp × Option JVal) :=
  let urlPath := unquote_plus (popPath req.path)
  match findHandler handlerTable urlPath with
  | none => .ok (⟨.text "Not found", 404, none⟩, none)
  | some (h, groups) =>
      let verb := pyLower (req.reqMethod.getD "GET")
      if verb ∈ handlerAttrs h then
        match invokeMethod v config req.content h verb groups with
        | .ok r => .ok r
        | .error (.web msg code) => .ok (⟨.text msg, code, none⟩, none)
        | .error (.py msg) => .error msg
      else .ok (⟨.text "Not allowed", 405, none⟩, none)

/-- A validator stub that accepts every candidate document. -/
def okValidator : Validator :=
  ⟨fun _ => ([], true), fun _ => .ok ()⟩

/-- A validator stub whose only outstanding issue is informal (a warning):
the error list is non-empty but the informal-only flag is set. -/
def warnValidator : Validator :=
  ⟨fun _ => (["informal warning"], true), fun _ => .ok ()⟩

/-- A document with the three collections present and empty. -/
def emptyDoc : JVal :=
  .obj [("layers", .arr []), ("caches", .obj []), ("sources", .obj [])]

/-- A well-formed document holding exactly the pack `foo`. -/
def fooDoc : JVal :=
  .obj [("layers", .arr [.obj [("name", .str "foo"), ("title", .str "Foo"),
                               ("sources", .arr [.str "foo_cache"])]]),
        ("caches", .obj [("foo_cache", .obj [("sources", .arr [.str "foo_source"])])]),
        ("sources", .obj [("foo_source", .obj [("type", .str "wms")])])]

/-- A document holding only the layer `foo`, with no derived cache or source. -/
def layerOnlyDoc : JVal :=
  .obj [("layers", .arr [.obj [("name", .str "foo"), ("title", .str "Foo")]]),
        ("caches", .obj []), ("sources", .obj [])]

/-- A pack-creation body for the name `foo` with all three parts. -/
def fooBody : JVal :=
  .obj [("layer", .obj [("name", .str "foo"), ("title", .str "Foo")]),
        ("cache", .obj [("format", .str "image/png")]),
        ("source", .obj [("type", .str "wms")])]

/-! ## Basic lemmas about the embedded primitives -/

@[simp] theorem pbind_ok {α β : Type} (a : α) (f : α → PyResult β) :
    pbind (.ok a) f = f a := rfl

@[simp] theorem pbind_error {α β : Type} (e : Fault) (f : α → PyResult β) :
    pbind (.error e) f = .error e := rfl

@[simp] theorem lookupField_setField_self (fs : List (String × JVal)) (k : String) (v : JVal) :
    lookupField (setField fs k v) k = some v := by
  induction fs with
  | nil => simp [setField, lookupField]
  | cons p rest ih =>
      by_cases h : p.1 = k <;> simp [setField, lookupField, h, ih]

theorem lookupField_setField_ne (fs : List (String × JVal)) (k k' : String) (v : JVal)
    (h : k' ≠ k) : lookupField (setField fs k v) k' = lookupField fs k' := by
  induction fs with
  | nil => simp [setField, lookupField, Ne.symm h]
  | cons p rest ih =>
      by_cases h1 : p.1 = k
      · subst h1; simp [setField, lookupField, Ne.symm h]
      · by_cases h2 : p.1 = k' <;> simp [setField, lookupField, h1, h2, ih, h]

theorem lookupField_eraseField_ne (fs : List (String × JVal)) (k k' : String)
    (h : k' ≠ k) : lookupField (eraseField fs k) k' = lookupField fs k' := by
  induction fs with
  | nil => simp [eraseField]
  | cons p rest ih =>
      by_cases h1 : p.1 = k
      · subst h1; simp [eraseField, lookupField, Ne.symm h]
      · by_cases h2 : p.1 = k' <;> simp [eraseField, lookupField, h1, h2, ih, h]

theorem pyIndex_obj_some {fs : List (String × JVal)} {k : String} {x : JVal}
    (h : lookupField fs k = some x) : pyIndex (.obj fs) k = .ok x := by
  simp [pyIndex, h]

/-- A successful subscript means the value was a dict. -/
theorem pyIndex_ok_is_obj {l : JVal} {k : String} {v : JVal}
    (h : pyIndex l k = .ok v) : ∃ fs, l = JVal.obj fs := by
  cases l <;> simp [pyIndex] at h <;> exact ⟨_, rfl⟩

/-! ## `_find_layer` scan lemmas -/

/-- When no layer's name matches, the scan reaches the sentinel. -/
theorem findLayerAux_no_match {nm : JVal} :
    ∀ (ls : List JVal) (k : Nat),
      (∀ l ∈ ls, ∃ v, pyIndex l "name" = .ok v ∧ v ≠ nm) →
      findLayerAux nm ls k = .ok (-1, JVal.null)
  | [], _, _ => rfl
  | l :: rest, k, h => by
      obtain ⟨v, hv, hvne⟩ := h l (by simp)
      simp only [findLayerAux, hv, pbind_ok]
      rw [if_neg hvne]
      exact findLayerAux_no_match rest (k + 1) (fun x hx => h x (by simp [hx]))

/-- The scan stops at the first index whose layer name matches. -/
theorem findLayerAux_first {nm : JVal} :
    ∀ (ls : List JVal) (k i : Nat) (hi : i < ls.length),
      pyIndex (ls.get ⟨i, hi⟩) "name" = .ok nm →
      (∀ (j : Nat) (hj : j < ls.length), j < i →
          ∃ v, pyIndex (ls.get ⟨j, hj⟩) "name" = .ok v ∧ v ≠ nm) →
      findLayerAux nm ls k = .ok ((k : Int) + i, ls.get ⟨i, hi⟩) := by
  intro ls
  induction ls with
  | nil => intro k i hi; exact absurd hi (Nat.not_lt_zero i)
  | cons l rest ih =>
      intro k i hi hname hprev
      cases i with
      | zero =>
          simp only [List.get] at hname ⊢
          simp [findLayerAux, hname]
      | succ i =>
          obtain ⟨v, hv, hvne⟩ := hprev 0 (Nat.succ_pos _) (Nat.succ_pos i)
          simp only [List.get] at hv hname ⊢
          simp only [findLayerAux, hv, pbind_ok]
          rw [if_neg hvne]
          rw [ih (k + 1) i (Nat.lt_of_succ_lt_succ hi) hname
            (fun j hj hji => hprev (j + 1) (Nat.succ_lt_succ hj) (Nat.succ_lt_succ hji))]
          congr 2
          push_cast
          ring

/-- With every layer a named dict, the scan either reports the sentinel and
no name matched, or stops at a first matching index. -/
theorem findLayerAux_cases {nm : JVal} :
    ∀ (ls : List JVal) (k : Nat),
      (∀ l ∈ ls, ∃ v, pyIndex l "name" = .ok v) →
      (findLayerAux nm ls k = .ok (-1, JVal.null) ∧
        ∀ l ∈ ls, pyIndex l "name" ≠ .ok nm) ∨
      (∃ (i : Nat) (hi : i < ls.length),
        findLayerAux nm ls k = .ok ((k : Int) + i, ls.get ⟨i, hi⟩) ∧
        pyIndex (ls.get ⟨i, hi⟩) "name" = .ok nm)
  | [], k, _ => Or.inl ⟨rfl, by simp⟩
  | l :: rest, k, h => by
      obtain ⟨v, hv⟩ := h l (by simp)
      by_cases hmatch : v = nm
      · subst hmatch
        refine Or.inr ⟨0, Nat.succ_pos _, ?_, by simpa using hv⟩
        simp [findLayerAux, hv]
      · rcases findLayerAux_cases rest (k + 1) (fun x hx => h x (by simp [hx])) with
          ⟨heq, hnone⟩ | ⟨i, hi, heq, hmatch2⟩
        · refine Or.inl ⟨?_, ?_⟩
          · simp only [findLayerAux, hv, pbind_ok]
            rw [if_neg hmatch]
            exact heq
          · intro x hx
            rcases List.mem_cons.1 hx with rfl | hx2
            · rw [hv]; simp [hmatch]
            · exact hnone x hx2
        · refine Or.inr ⟨i + 1, Nat.succ_lt_succ hi, ?_, by simpa using hmatch2⟩
          simp only [findLayerAux, hv, pbind_ok]
          rw [if_neg hmatch]
          rw [heq]
          congr 2
          push_cast
          ring

/--
C9: for every document whose `layers` entry is a sequence, `_find_layer`
performs a linear scan of that sequence and returns the pair
`(index, layer)` for the first layer whose `"name"` equals the given name
(in particular the first occurrence when several layers share the name), and
the sentinel `(-1, None)` when no layer matches.
-/
theorem find_layer_linear_scan (config : JVal) (cf : List (String × JVal))
    (ls : List JVal) (nm : JVal)
    (hconf : config = JVal.obj cf)
    (hl : lookupField cf "layers" = some (JVal.arr ls)) :
    ((∀ l ∈ ls, ∃ v, pyIndex l "name" = .ok v ∧ v ≠ nm) →
        find_layer config nm = .ok (-1, JVal.null)) ∧
    (∀ (i : Nat) (hi : i < ls.length),
        pyIndex (ls.get ⟨i, hi⟩) "name" = .ok nm →
        (∀ (j : Nat) (hj : j < ls.length), j < i →
            ∃ v, pyIndex (ls.get ⟨j, hj⟩) "name" = .ok v ∧ v ≠ nm) →
        find_layer config nm = .ok ((i : Int), ls.get ⟨i, hi⟩)) := by
  subst hconf
  constructor
  · intro hnone
    simp only [find_layer, pyIndex_obj_some hl, pbind_ok, asList]
    exact findLayerAux_no_match ls 0 hnone
  · intro i hi hname hprev
    simp only [find_layer, pyIndex_obj_some hl, pbind_ok, asList]
    have := findLayerAux_first ls 0 i hi hname hprev
    simpa using this

/-- A document with two layers of the same name, to exercise the
first-occurrence behaviour of the scan. -/
def dupLayersDoc : JVal :=
  .obj [("layers", .arr [.obj [("name", .str "foo"), ("title", .str "A")],
                         .obj [("name", .str "foo"), ("title", .str "B")]]),
        ("caches", .obj []), ("sources", .obj [])]

/-- C9 witness: on a document with duplicate `foo` layers the scan returns
index 0 with the first of them, and the sentinel for an unknown name. -/
theorem find_layer_linear_scan_witness :
    find_layer dupLayersDoc (.str "foo") =
      .ok (0, .obj [("name", .str "foo"), ("title", .str "A")]) ∧
    find_layer dupLayersDoc (.str "bar") = .ok (-1, JVal.null) := by
  constructor
  · exact (find_layer_linear_scan dupLayersDoc _ _ (.str "foo") rfl rfl).2 0 (by decide)
      rfl (fun j hj hji => absurd hji (Nat.not_lt_zero j))
  · refine (find_layer_linear_scan dupLayersDoc _ _ (.str "bar") rfl rfl).1 ?_
    intro l hl
    fin_cases hl <;> exact ⟨JVal.str "foo", rfl, by decide⟩

/--
C4 counterexample: a validator whose outstanding issues are informal only
(warning level, flag `informal_only = True`) but whose error list is
non-empty still makes `_validate_config` raise the 400 client error, so the
helper does not fail "exactly when blocking errors are present".
-/
theorem validate_config_counterexample :
    (warnValidator.validate emptyDoc).2 = true ∧
    validate_config warnValidator emptyDoc =
      .error (.web "informal warning" 400) :=
  ⟨rfl, rfl⟩

/--
C4 (amended): `_validate_config` fails with a 400 client error whose message
is the newline-joined validator error list exactly when the validator reports
a non-informal-only flag or a non-empty error list (so informal-only
warnings are rejected as well); only when the flag is informal-only and the
list empty does it run the second-stage topology-instantiation check, whose
failure is reported as a 404 client error with a descriptive message; on
success the helper raises nothing.
-/
theorem validate_config_gate (v : Validator) (config : JVal) :
    (((v.validate config).2 = false ∨ (v.validate config).1 ≠ []) →
        validate_config v config =
          .error (.web (String.intercalate "\n" (v.validate config).1) 400)) ∧
    (∀ m, (v.validate config).2 = true → (v.validate config).1 = [] →
        v.instantiate config = .error m →
        validate_config v config =
          .error (.web ("Failed to update configuration:\n" ++ m) 404)) ∧
    ((v.validate config).2 = true → (v.validate config).1 = [] →
        v.instantiate config = .ok () →
        validate_config v config = .ok ()) := by
  refine ⟨?_, ?_, ?_⟩
  · intro h
    have hcond : (!(v.validate config).2 || decide ((v.validate config).1.length > 0)) = true := by
      rcases h with h | h
      · simp [h]
      · simp [List.length_pos.2 h]
    simp [validate_config, hcond]
  · intro m h1 h2 h3
    simp [validate_config, h1, h2, h3]
  · intro h1 h2 h3
    simp [validate_config, h1, h2, h3]

/-- C4 witness: the amended gate applied to the informal-only validator. -/
theorem validate_config_gate_witness :
    validate_config warnValidator emptyDoc =
      .error (.web (String.intercalate "\n" (warnValidator.validate emptyDoc).1) 400) :=
  (validate_config_gate warnValidator emptyDoc).1 (Or.inr (by decide))

/-!  ## Dispatcher claims -/

/--
C7: the dispatcher strips the fixed API prefix, percent-decodes the
remaining path, and selects the first registered pattern (in registration
order) that matches the whole decoded path; the selected handler's method
named after the lower-cased verb is invoked with the pattern's capture
groups, so when two patterns both match, registration order alone determines
the winner.  (Instantiating the handler with the configuration path is the
binding of `config` here.)
-/
theorem handle_first_match (v : Validator) (config : JVal) (req : Req)
    (i : Nat) (hi : i < handlerTable.length) (gs : List String) (r : Resp × Option JVal)
    (hmatch : (handlerTable.get ⟨i, hi⟩).1 (unquote_plus (popPath req.path)) = some gs)
    (hfirst : ∀ (j : Nat) (hj : j < handlerTable.length), j < i →
        (handlerTable.get ⟨j, hj⟩).1 (unquote_plus (popPath req.path)) = none)
    (hverb : pyLower (req.reqMethod.getD "GET") ∈ handlerAttrs (handlerTable.get ⟨i, hi⟩).2)
    (hinvoke : invokeMethod v config req.content (handlerTable.get ⟨i, hi⟩).2
        (pyLower (req.reqMethod.getD "GET")) gs = .ok r) :
    findHandler handlerTable (unquote_plus (popPath req.path)) =
      some ((handlerTable.get ⟨i, hi⟩).2, gs) ∧
    handle v config req = .ok r := by
  have hfind : findHandler handlerTable (unquote_plus (popPath req.path)) =
      some ((handlerTable.get ⟨i, hi⟩).2, gs) := by
    have hi3 : i < 3 := by simpa [handlerTable] using hi
    interval_cases i
    · simp only [handlerTable, List.get] at hmatch ⊢
      simp [findHandler, hmatch]
    · have h0 := hfirst 0 (by simp [handlerTable]) (by omega)
      simp only [handlerTable, List.get] at hmatch h0 ⊢
      simp [findHandler, hmatch, h0]
    · have h0 := hfirst 0 (by simp [handlerTable]) (by omega)
      have h1 := hfirst 1 (by simp [handlerTable]) (by omega)
      simp only [handlerTable, List.get] at hmatch h0 h1 ⊢
      simp [findHandler, hmatch, h0, h1]
  refine ⟨hfind, ?_⟩
  simp only [handle, hfind]
  rw [if_pos hverb, hinvoke]

/-- C7 witness: a GET of `/api/config` selects the first table entry and
returns the document handler's response. -/
theorem handle_first_match_witness :
    findHandler handlerTable (unquote_plus (popPath "/api/config")) =
      some (HandlerId.configHandler, []) ∧
    handle okValidator emptyDoc ⟨"/api/config", some "GET", JVal.null⟩ =
      .ok (jsonResponse emptyDoc, none) :=
  handle_first_match okValidator emptyDoc ⟨"/api/config", some "GET", JVal.null⟩
    0 (by simp [handlerTable]) [] (jsonResponse emptyDoc, none)
    rfl (fun j hj hji => absurd hji (Nat.not_lt_zero j)) (by decide) rfl

/--
C8: a request whose decoded path matches no registered pattern gets the 404
"Not found" response, with no handler instantiated; a request whose path
matches but whose handler has no attribute named after the lower-cased verb
gets the 405 "Not allowed" response, with no handler method invoked.
-/
theorem handle_not_found_not_allowed (v : Validator) (config : JVal) (req : Req) :
    (findHandler handlerTable (unquote_plus (popPath req.path)) = none →
        handle v config req = .ok (⟨.text "Not found", 404, none⟩, none)) ∧
    (∀ (h : HandlerId) (gs : List String),
        findHandler handlerTable (unquote_plus (popPath req.path)) = some (h, gs) →
        pyLower (req.reqMethod.getD "GET") ∉ handlerAttrs h →
        handle v config req = .ok (⟨.text "Not allowed", 405, none⟩, none)) := by
  constructor
  · intro hf
    simp [handle, hf]
  · intro h gs hf hverb
    simp [handle, hf, hverb]

/-- C8 witness: an unknown path yields 404; a PATCH of `/config` yields 405. -/
theorem handle_not_found_not_allowed_witness :
    handle okValidator emptyDoc ⟨"/api/unknown", some "GET", JVal.null⟩ =
      .ok (⟨.text "Not found", 404, none⟩, none) ∧
    handle okValidator emptyDoc ⟨"/api/config", some "PATCH", JVal.null⟩ =
      .ok (⟨.text "Not allowed", 405, none⟩, none) :=
  ⟨(handle_not_found_not_allowed okValidator emptyDoc
      ⟨"/api/unknown", some "GET", JVal.null⟩).1 rfl,
   (handle_not_found_not_allowed okValidator emptyDoc
      ⟨"/api/config", some "PATCH", JVal.null⟩).2 .configHandler [] rfl (by decide)⟩

/--
C10 counterexample: the pack-item pattern `(.+)` does not capture every
non-empty suffix.  Under Python `re` semantics `.` excludes newlines, so the
decoded path `/config/pack/a\nb` matches no registered pattern and the
request is answered 404 rather than routed; and for the suffix `a\n` the
pattern matches but captures only `a`, not the entire suffix.
-/
theorem pack_item_pattern_counterexample :
    matchPackItem "/config/pack/a\nb" = none ∧
    findHandler handlerTable "/config/pack/a\nb" = none ∧
    handle okValidator fooDoc ⟨"/api/config/pack/a\nb", some "GET", JVal.null⟩ =
      .ok (⟨.text "Not found", 404, none⟩, none) ∧
    matchPackItem "/config/pack/a\n" = some ["a"] :=
  ⟨rfl, rfl, rfl, rfl⟩

/--
C10 (amended): the pack-item URL pattern captures any non-empty suffix of
newline-free characters, including suffixes containing further `/`
characters, with the entire suffix as the pack name; the path
`/config/pack/` with an empty suffix matches no registered pattern, and a
request for it yields 404.
-/
theorem pack_item_pattern_routes (S : String) (hne : S ≠ "")
    (hnl : '\n' ∉ S.toList) :
    matchPackItem ("/config/pack/" ++ S) = some [S] ∧
    findHandler handlerTable ("/config/pack/" ++ S) =
      some (HandlerId.configPackHandler, [S]) ∧
    findHandler handlerTable "/config/pack/" = none ∧
    (∀ (v : Validator) (config : JVal),
        handle v config ⟨"/api/config/pack/", some "GET", JVal.null⟩ =
          .ok (⟨.text "Not found", 404, none⟩, none)) := by
  have hdata : ("/config/pack/" ++ S).toList = packItemHead ++ S.toList := by
    simp [String.toList, String.data_append, packItemHead]
  have hSne : S.toList ≠ [] := by
    intro k
    apply hne
    cases S
    simp [String.toList] at k
    simp [k]
  have hlast : S.toList.getLast? ≠ some '\n' := by
    intro k
    obtain ⟨hne2, heq⟩ := @List.mem_getLast?_eq_getLast Char S.toList '\n' k
    apply hnl
    rw [heq]
    exact List.getLast_mem hne2
  have hmatch : matchPackItem ("/config/pack/" ++ S) = some [S] := by
    simp only [matchPackItem, hdata, List.take_left, List.drop_left]
    rw [if_neg hlast]
    rw [if_pos (And.intro hSne hnl)]
    cases S
    rfl
  have hlen : ("/config/pack/" ++ S).length = 13 + S.length := by
    have : ("/config/pack/" : String).length = 13 := rfl
    rw [String.length_append, this]
  have h7 : ("/config" : String).length = 7 := rfl
  have h8 : ("/config\n" : String).length = 8 := rfl
  have hc1 : matchConfig ("/config/pack/" ++ S) = none := by
    unfold matchConfig
    rw [if_neg]
    rintro (h | h)
    · have hlen2 := congrArg String.length h
      rw [hlen, h7] at hlen2
      omega
    · have hlen2 := congrArg String.length h
      rw [hlen, h8] at hlen2
      omega
  refine ⟨hmatch, ?_, by decide, fun v config => rfl⟩
  simp [findHandler, handlerTable, hc1, hmatch]

/-- C10 witness (for the amended claim): a suffix containing a slash is
captured whole. -/
theorem pack_item_pattern_routes_witness :
    matchPackItem ("/config/pack/" ++ "a/b") = some ["a/b"] ∧
    findHandler handlerTable ("/config/pack/" ++ "a/b") =
      some (HandlerId.configPackHandler, ["a/b"]) ∧
    findHandler handlerTable "/config/pack/" = none ∧
    (∀ (v : Validator) (config : JVal),
        handle v config ⟨"/api/config/pack/", some "GET", JVal.null⟩ =
          .ok (⟨.text "Not found", 404, none⟩, none)) :=
  pack_item_pattern_routes "a/b" (by decide) (by decide)

/-! ## Pack creation -/

theorem cache_key_assoc (n : String) : n ++ "_" ++ "cache" = n ++ "_cache" := by
  have h : ("_" ++ "cache" : String) = "_cache" := rfl
  rw [String.append_assoc, h]

theorem source_key_assoc (n : String) : n ++ "_" ++ "source" = n ++ "_source" := by
  have h : ("_" ++ "source" : String) = "_source" := rfl
  rw [String.append_assoc, h]

theorem caches_str : ("cache" ++ "s" : String) = "caches" := rfl

theorem sources_str : ("source" ++ "s" : String) = "sources" := rfl

theorem lookupField_set_layers_caches (fs : List (String × JVal)) (x : JVal) :
    lookupField (setField fs "layers" x) "caches" = lookupField fs "caches" :=
  lookupField_setField_ne fs "layers" "caches" x (by decide)

theorem lookupField_set_layers_sources (fs : List (String × JVal)) (x : JVal) :
    lookupField (setField fs "layers" x) "sources" = lookupField fs "sources" :=
  lookupField_setField_ne fs "layers" "sources" x (by decide)

theorem lookupField_set_caches_sources (fs : List (String × JVal)) (x : JVal) :
    lookupField (setField fs "caches" x) "sources" = lookupField fs "sources" :=
  lookupField_setField_ne fs "caches" "sources" x (by decide)

/-- The document value a successful `ConfigPackListHandler.post` builds out
of a decomposed document and body: the layer (with its `sources` wired to
the derived cache key) appended to `layers`, the cache (with its `sources`
wired to the derived source key) inserted into `caches`, and the submitted
source inserted into `sources`. -/
def postResultDoc (cf lf chf : List (String × JVal)) (ls : List JVal)
    (cs ss : List (String × JVal)) (src : JVal) (n : String) : JVal :=
  .obj (setField (setField (setField cf "layers"
      (.arr (ls ++ [JVal.obj (setField lf "sources" (.arr [.str (n ++ "_cache")]))])))
    "caches" (.obj (setField cs (n ++ "_cache")
      (JVal.obj (setField chf "sources" (.arr [.str (n ++ "_source")]))))))
    "sources" (.obj (setField ss (n ++ "_source") src)))

/-- Evaluation of `ConfigPackListHandler.post` when every precondition
holds and the validator accepts the candidate. -/
theorem post_ok (v : Validator) (cf ct lf chf : List (String × JVal))
    (ls : List JVal) (cs ss : List (String × JVal)) (src : JVal) (n : String)
    (hl : lookupField cf "layers" = some (JVal.arr ls))
    (hc : lookupField cf "caches" = some (JVal.obj cs))
    (hs : lookupField cf "sources" = some (JVal.obj ss))
    (hlayer : lookupField ct "layer" = some (JVal.obj lf))
    (hname : lookupField lf "name" = some (JVal.str n))
    (hcache : lookupField ct "cache" = some (JVal.obj chf))
    (hsource : lookupField ct "source" = some src)
    (hnolayer : ∀ l ∈ ls, ∃ w, pyIndex l "name" = .ok w ∧ w ≠ JVal.str n)
    (hnocache : lookupField cs (n ++ "_cache") = none)
    (hnosource : lookupField ss (n ++ "_source") = none)
    (hval : validate_config v (postResultDoc cf lf chf ls cs ss src n) = .ok ()) :
    post v (.obj cf) (.obj ct) =
      .ok (jsonResponse (postResultDoc cf lf chf ls cs ss src n),
           some (postResultDoc cf lf chf ls cs ss src n)) := by
  simp only [post, find_layer, checkPartCollision, pyGetD, pyIndex, pyContains, objSet,
    asList, pyStrConcat, pyStr, pbind_ok, pbind_error,
    hl, hc, hs, hlayer, hname, hcache, hsource,
    cache_key_assoc, source_key_assoc, caches_str, sources_str,
    lookupField_set_layers_caches, lookupField_set_layers_sources,
    lookupField_set_caches_sources,
    findLayerAux_no_match ls 0 hnolayer, hnocache, hnosource,
    Option.getD_some, Option.isSome]
  simp only [postResultDoc] at hval
  simp [hval, postResultDoc]

/--
C1: on a well-formed document with no layer named `n`, no cache key
`n_cache` and no source key `n_source`, a successful POST of a pack whose
layer name is `n` produces - as the persisted document, the cached document
and the JSON response body, which are all the same value `d` - a document
whose `layers` sequence is the old sequence with the submitted layer
appended and its `sources` set to `[n ++ "_cache"]`, whose `caches` mapping
gains the key `n ++ "_cache"` bound to the submitted cache with `sources`
set to `[n ++ "_source"]`, and whose `sources` mapping gains the key
`n ++ "_source"` bound to exactly the submitted source object; all other
entries of the caches and sources mappings are unchanged.
-/
theorem post_creates_pack (v : Validator) (config content : JVal)
    (cf ct lf chf : List (String × JVal)) (ls : List JVal)
    (cs ss : List (String × JVal)) (src : JVal) (n : String)
    (hconf : config = JVal.obj cf)
    (hl : lookupField cf "layers" = some (JVal.arr ls))
    (hc : lookupField cf "caches" = some (JVal.obj cs))
    (hs : lookupField cf "sources" = some (JVal.obj ss))
    (hcontent : content = JVal.obj ct)
    (hlayer : lookupField ct "layer" = some (JVal.obj lf))
    (hname : lookupField lf "name" = some (JVal.str n))
    (hcache : lookupField ct "cache" = some (JVal.obj chf))
    (hsource : lookupField ct "source" = some src)
    (hnolayer : ∀ l ∈ ls, ∃ w, pyIndex l "name" = .ok w ∧ w ≠ JVal.str n)
    (hnocache : lookupField cs (n ++ "_cache") = none)
    (hnosource : lookupField ss (n ++ "_source") = none)
    (hval : ∀ c, validate_config v c = .ok ()) :
    ∃ d : JVal,
      post v config content = .ok (jsonResponse d, some d) ∧
      pyIndex d "layers" =
        .ok (.arr (ls ++ [JVal.obj (setField lf "sources" (.arr [.str (n ++ "_cache")]))])) ∧
      (∃ cs2, pyIndex d "caches" = .ok (JVal.obj cs2) ∧
        lookupField cs2 (n ++ "_cache") =
          some (JVal.obj (setField chf "sources" (.arr [.str (n ++ "_source")]))) ∧
        ∀ k, k ≠ n ++ "_cache" → lookupField cs2 k = lookupField cs k) ∧
      (∃ ss2, pyIndex d "sources" = .ok (JVal.obj ss2) ∧
        lookupField ss2 (n ++ "_source") = some src ∧
        ∀ k, k ≠ n ++ "_source" → lookupField ss2 k = lookupField ss k) := by
  subst hconf
  subst hcontent
  refine ⟨postResultDoc cf lf chf ls cs ss src n,
    post_ok v cf ct lf chf ls cs ss src n hl hc hs hlayer hname hcache hsource
      hnolayer hnocache hnosource (hval _), ?_, ?_, ?_⟩
  · simp [postResultDoc, pyIndex,
      lookupField_setField_ne _ "sources" "layers" _ (by decide),
      lookupField_setField_ne _ "caches" "layers" _ (by decide)]
  · refine ⟨setField cs (n ++ "_cache")
        (JVal.obj (setField chf "sources" (.arr [.str (n ++ "_source")]))), ?_, ?_, ?_⟩
    · simp [postResultDoc, pyIndex,
        lookupField_setField_ne _ "sources" "caches" _ (by decide)]
    · simp
    · intro k hk
      exact lookupField_setField_ne _ _ _ _ hk
  · refine ⟨setField ss (n ++ "_source") src, ?_, ?_, ?_⟩
    · simp [postResultDoc, pyIndex]
    · simp
    · intro k hk
      exact lookupField_setField_ne _ _ _ _ hk

/-- C1 witness: posting the pack `foo` against the empty document under the
always-accepting validator. -/
theorem post_creates_pack_witness :
    ∃ d : JVal,
      post okValidator emptyDoc fooBody = .ok (jsonResponse d, some d) ∧
      pyIndex d "layers" = .ok (.arr [.obj [("name", .str "foo"), ("title", .str "Foo"),
          ("sources", .arr [.str "foo_cache"])]]) ∧
      (∃ cs2, pyIndex d "caches" = .ok (JVal.obj cs2) ∧
        lookupField cs2 "foo_cache" = some (.obj [("format", .str "image/png"),
          ("sources", .arr [.str "foo_source"])]) ∧
        ∀ k, k ≠ "foo_cache" → lookupField cs2 k = lookupField [] k) ∧
      (∃ ss2, pyIndex d "sources" = .ok (JVal.obj ss2) ∧
        lookupField ss2 "foo_source" = some (.obj [("type", .str "wms")]) ∧
        ∀ k, k ≠ "foo_source" → lookupField ss2 k = lookupField [] k) :=
  post_creates_pack okValidator emptyDoc fooBody
    [("layers", .arr []), ("caches", .obj []), ("sources", .obj [])]
    [("layer", .obj [("name", .str "foo"), ("title", .str "Foo")]),
     ("cache", .obj [("format", .str "image/png")]),
     ("source", .obj [("type", .str "wms")])]
    [("name", .str "foo"), ("title", .str "Foo")]
    [("format", .str "image/png")]
    [] [] [] (.obj [("type", .str "wms")]) "foo"
    rfl rfl rfl rfl rfl rfl rfl rfl rfl (by simp) rfl rfl (fun _ => rfl)

/-- Scanning a list whose members all fail the name test, extended by one
matching layer, stops exactly at that appended layer. -/
theorem findLayerAux_append_match (nm : JVal) :
    ∀ (ls : List JVal) (l2 : JVal) (k : Nat),
      (∀ l ∈ ls, ∃ w, pyIndex l "name" = .ok w ∧ w ≠ nm) →
      pyIndex l2 "name" = .ok nm →
      findLayerAux nm (ls ++ [l2]) k = .ok (((k + ls.length : Nat) : Int), l2)
  | [], l2, k, _, hl2 => by
      simp [findLayerAux, hl2]
  | l :: rest, l2, k, hn, hl2 => by
      obtain ⟨w, hw, hwne⟩ := hn l (by simp)
      have hstep : findLayerAux nm ((l :: rest) ++ [l2]) k =
          findLayerAux nm (rest ++ [l2]) (k + 1) := by
        rw [List.cons_append]
        simp only [findLayerAux, hw, pbind_ok]
        rw [if_neg hwne]
      have harith : (k + 1) + rest.length = k + (l :: rest).length := by
        simp
        omega
      rw [hstep,
        findLayerAux_append_match nm rest l2 (k + 1) (fun x hx => hn x (by simp [hx])) hl2,
        harith]

/--
C3: each precondition check of POST `/config/pack` short-circuits with a 400
client error, in this order: body decoding to `None`; body lacking a
`layer` value; the layer lacking a `name`; a layer with that name already
existing; a cache key `<name>_cache` or a source key `<name>_source`
already existing.  In particular posting the same pack name twice yields
400 on the second attempt.  Every error outcome carries no written
document, so the store and the loaded document are unchanged on each of
these paths.
-/
theorem post_precondition_order (v : Validator) (config : JVal)
    (cf : List (String × JVal)) (ls : List JVal) (cs ss : List (String × JVal))
    (hconf : config = JVal.obj cf)
    (hl : lookupField cf "layers" = some (JVal.arr ls))
    (hc : lookupField cf "caches" = some (JVal.obj cs))
    (hs : lookupField cf "sources" = some (JVal.obj ss)) :
    (post v config JVal.null = .error (.web "Invalid JSON" 400)) ∧
    (∀ ct, (lookupField ct "layer").getD JVal.null = JVal.null →
        post v config (.obj ct) = .error (.web "Missing 'layer' value." 400)) ∧
    (∀ ct lf, lookupField ct "layer" = some (JVal.obj lf) →
        (lookupField lf "name").getD JVal.null = JVal.null →
        post v config (.obj ct) = .error (.web "Missing 'name' for layer." 400)) ∧
    (∀ ct lf n (i : Nat) (hi : i < ls.length),
        lookupField ct "layer" = some (JVal.obj lf) →
        lookupField lf "name" = some (JVal.str n) →
        pyIndex (ls.get ⟨i, hi⟩) "name" = .ok (.str n) →
        (∀ (j : Nat) (hj : j < ls.length), j < i →
            ∃ w, pyIndex (ls.get ⟨j, hj⟩) "name" = .ok w ∧ w ≠ JVal.str n) →
        post v config (.obj ct) =
          .error (.web ("Already have a layer for '" ++ n ++ "'") 400)) ∧
    (∀ ct lf n w, lookupField ct "layer" = some (JVal.obj lf) →
        lookupField lf "name" = some (JVal.str n) →
        (∀ l ∈ ls, ∃ u, pyIndex l "name" = .ok u ∧ u ≠ JVal.str n) →
        lookupField cs (n ++ "_cache") = some w →
        post v config (.obj ct) =
          .error (.web ("Already have a cache '" ++ (n ++ "_cache") ++ "'") 400)) ∧
    (∀ ct lf n w, lookupField ct "layer" = some (JVal.obj lf) →
        lookupField lf "name" = some (JVal.str n) →
        (∀ l ∈ ls, ∃ u, pyIndex l "name" = .ok u ∧ u ≠ JVal.str n) →
        lookupField cs (n ++ "_cache") = none →
        lookupField ss (n ++ "_source") = some w →
        post v config (.obj ct) =
          .error (.web ("Already have a source '" ++ (n ++ "_source") ++ "'") 400)) ∧
    (∀ ct lf chf src n,
        lookupField ct "layer" = some (JVal.obj lf) →
        lookupField lf "name" = some (JVal.str n) →
        lookupField ct "cache" = some (JVal.obj chf) →
        lookupField ct "source" = some src →
        (∀ l ∈ ls, ∃ u, pyIndex l "name" = .ok u ∧ u ≠ JVal.str n) →
        lookupField cs (n ++ "_cache") = none →
        lookupField ss (n ++ "_source") = none →
        (∀ c, validate_config v c = .ok ()) →
        ∀ d, post v config (.obj ct) = .ok (jsonResponse d, some d) →
        post v d (.obj ct) =
          .error (.web ("Already have a layer for '" ++ n ++ "'") 400)) := by
  subst hconf
  refine ⟨rfl, ?_, ?_, ?_, ?_, ?_, ?_⟩
  · intro ct hmiss
    simp [post, pyGetD, hmiss]
  · intro ct lf hlayer hmiss
    simp [post, pyGetD, hlayer, hmiss]
  · intro ct lf n i hi hlayer hname hmatch hprev
    obtain ⟨fs, hfs⟩ := pyIndex_ok_is_obj hmatch
    have hfind := findLayerAux_first ls 0 i hi hmatch hprev
    simp only [post, pyGetD, hlayer, Option.getD_some, pbind_ok, find_layer,
      pyIndex_obj_some hl, asList, hname, hfind]
    rw [hfs]
    simp [pyStr]
  · intro ct lf n w hlayer hname hnolayer hcoll
    have hfind := findLayerAux_no_match ls 0 hnolayer
    simp [post, pyGetD, hlayer, hname, find_layer, pyIndex_obj_some hl, asList,
      hfind, checkPartCollision, pyStr, cache_key_assoc, caches_str,
      pyIndex_obj_some hc, pyContains, hcoll]
  · intro ct lf n w hlayer hname hnolayer hnocache hcoll
    have hfind := findLayerAux_no_match ls 0 hnolayer
    simp [post, pyGetD, hlayer, hname, find_layer, pyIndex_obj_some hl, asList,
      hfind, checkPartCollision, pyStr, cache_key_assoc, source_key_assoc,
      caches_str, sources_str, pyIndex_obj_some hc, pyIndex_obj_some hs,
      pyContains, hnocache, hcoll]
  · intro ct lf chf src n hlayer hname hcache hsource hnolayer hnocache hnosource hval d hpost
    rw [post_ok v cf ct lf chf ls cs ss src n hl hc hs hlayer hname hcache hsource
      hnolayer hnocache hnosource (hval _)] at hpost
    have hd : d = postResultDoc cf lf chf ls cs ss src n := by
      have hpair := Except.ok.inj hpost
      have hsnd := congrArg Prod.snd hpair
      exact (Option.some.inj hsnd).symm
    subst hd
    have hlay2 : lookupField (setField lf "sources" (.arr [.str (n ++ "_cache")])) "name" =
        some (JVal.str n) := by
      rw [lookupField_setField_ne _ _ _ _ (by decide)]
      exact hname
    have hfind := findLayerAux_append_match (JVal.str n) ls
      (JVal.obj (setField lf "sources" (.arr [.str (n ++ "_cache")]))) 0 hnolayer
      (pyIndex_obj_some hlay2)
    have hdl : lookupField
        (setField (setField (setField cf "layers"
          (.arr (ls ++ [JVal.obj (setField lf "sources" (.arr [.str (n ++ "_cache")]))])))
          "caches" (.obj (setField cs (n ++ "_cache")
            (JVal.obj (setField chf "sources" (.arr [.str (n ++ "_source")]))))))
          "sources" (.obj (setField ss (n ++ "_source") src))) "layers" =
        some (.arr (ls ++ [JVal.obj (setField lf "sources" (.arr [.str (n ++ "_cache")]))])) := by
      rw [lookupField_setField_ne _ _ _ _ (by decide),
        lookupField_setField_ne _ _ _ _ (by decide)]
      exact lookupField_setField_self cf "layers" _
    simp [post, postResultDoc, pyGetD, hlayer, hname, find_layer,
      pyIndex_obj_some hdl, asList, hfind, pyStr]

/-- C3 witness: the null-body, missing-layer and duplicate-name checks at
concrete inputs. -/
theorem post_precondition_order_witness :
    post okValidator emptyDoc JVal.null = .error (.web "Invalid JSON" 400) ∧
    post okValidator emptyDoc (.obj [("x", .num 1)]) =
      .error (.web "Missing 'layer' value." 400) ∧
    post okValidator layerOnlyDoc fooBody =
      .error (.web "Already have a layer for 'foo'" 400) := by
  have h := post_precondition_order okValidator emptyDoc
    [("layers", .arr []), ("caches", .obj []), ("sources", .obj [])]
    [] [] [] rfl rfl rfl rfl
  have h2 := post_precondition_order okValidator layerOnlyDoc
    [("layers", .arr [.obj [("name", .str "foo"), ("title", .str "Foo")]]),
     ("caches", .obj []), ("sources", .obj [])]
    [.obj [("name", .str "foo"), ("title", .str "Foo")]] [] [] rfl rfl rfl rfl
  refine ⟨h.1, h.2.1 _ rfl, ?_⟩
  exact h2.2.2.2.1 _ _ "foo" 0 (by decide) rfl rfl rfl
    (fun j hj hji => absurd hji (Nat.not_lt_zero j))

/--
C5 counterexample: a POST body with a valid, non-colliding layer but no
`cache` key does not complete as a status-bearing request: `post` raises the
uncaught `KeyError` fault and the dispatcher propagates it as a server
fault, so `cache` (and likewise `source`) is not optional.
-/
theorem post_cache_optional_counterexample :
    post okValidator emptyDoc (JVal.obj [("layer", .obj [("name", .str "foo")])]) =
      .error (.py "KeyError: cache") ∧
    handle okValidator emptyDoc
        ⟨"/api/config/pack", some "POST", JVal.obj [("layer", .obj [("name", .str "foo")])]⟩ =
      .error "KeyError: cache" :=
  ⟨rfl, rfl⟩

/--
C5 (amended): in a POST `/config/pack` body only `layer` (with its `name`)
is checked; `cache` and `source` are nevertheless required in practice - for
every body containing a valid, non-colliding layer but omitting the `cache`
key (or providing a cache but omitting `source`), the handler raises an
uncaught `KeyError` server fault rather than completing with a JSON response
or a status-bearing client error.
-/
theorem post_requires_cache_and_source (v : Validator) (config content : JVal)
    (cf ct lf : List (String × JVal)) (ls : List JVal)
    (cs ss : List (String × JVal)) (n : String)
    (hconf : config = JVal.obj cf)
    (hl : lookupField cf "layers" = some (JVal.arr ls))
    (hc : lookupField cf "caches" = some (JVal.obj cs))
    (hs : lookupField cf "sources" = some (JVal.obj ss))
    (hcontent : content = JVal.obj ct)
    (hlayer : lookupField ct "layer" = some (JVal.obj lf))
    (hname : lookupField lf "name" = some (JVal.str n))
    (hnolayer : ∀ l ∈ ls, ∃ w, pyIndex l "name" = .ok w ∧ w ≠ JVal.str n)
    (hnocache : lookupField cs (n ++ "_cache") = none)
    (hnosource : lookupField ss (n ++ "_source") = none) :
    (lookupField ct "cache" = none →
        post v config content = .error (.py "KeyError: cache")) ∧
    (∀ chf, lookupField ct "cache" = some (JVal.obj chf) →
        lookupField ct "source" = none →
        post v config content = .error (.py "KeyError: source")) := by
  subst hconf
  subst hcontent
  have hfind := findLayerAux_no_match ls 0 hnolayer
  constructor
  · intro hmisscache
    simp [post, pyGetD, hlayer, hname, find_layer, pyIndex_obj_some hl, asList, hfind,
      checkPartCollision, pyStr, cache_key_assoc, source_key_assoc, caches_str,
      sources_str, pyIndex_obj_some hc, pyIndex_obj_some hs, pyContains,
      hnocache, hnosource, pyStrConcat, objSet, pyIndex, hl, hc, hs, hmisscache]
  · intro chf hcache hmisssource
    simp [post, pyGetD, hlayer, hname, find_layer, pyIndex_obj_some hl, asList, hfind,
      checkPartCollision, pyStr, cache_key_assoc, source_key_assoc, caches_str,
      sources_str, pyIndex_obj_some hc, pyIndex_obj_some hs, pyContains,
      hnocache, hnosource, pyStrConcat, objSet, hl, hc, hs,
      lookupField_set_layers_caches, pyIndex, hcache, hmisssource]

/-- C5 witness: the amended claim at a concrete cacheless and a concrete
sourceless body. -/
theorem post_requires_cache_and_source_witness :
    (post okValidator emptyDoc (JVal.obj [("layer", .obj [("name", .str "bar")])]) =
      .error (.py "KeyError: cache")) ∧
    (post okValidator emptyDoc (JVal.obj [("layer", .obj [("name", .str "bar")]),
        ("cache", .obj [])]) = .error (.py "KeyError: source")) := by
  have h1 := post_requires_cache_and_source okValidator emptyDoc
    (JVal.obj [("layer", .obj [("name", .str "bar")])])
    [("layers", .arr []), ("caches", .obj []), ("sources", .obj [])]
    [("layer", .obj [("name", .str "bar")])]
    [("name", .str "bar")] [] [] [] "bar"
    rfl rfl rfl rfl rfl rfl rfl (by simp) rfl rfl
  have h2 := post_requires_cache_and_source okValidator emptyDoc
    (JVal.obj [("layer", .obj [("name", .str "bar")]), ("cache", .obj [])])
    [("layers", .arr []), ("caches", .obj []), ("sources", .obj [])]
    [("layer", .obj [("name", .str "bar")]), ("cache", .obj [])]
    [("name", .str "bar")] [] [] [] "bar"
    rfl rfl rfl rfl rfl rfl rfl (by simp) rfl rfl
  exact ⟨h1.1 rfl, h2.2 [] rfl rfl⟩

/--
C6: GET `/config/pack/<nm>` checks the cache key `nm_cache`, the source key
`nm_source` and the layer named `nm`; when all three are present it returns
200 with the JSON object holding exactly those cache, source and layer
values, and when any is absent it fails with a 404 client error whose
message lists exactly the missing part names comma-joined (so with only the
layer present the message names `cache, source` and not `layer`).
-/
theorem packGet_aggregates (config : JVal) (cf : List (String × JVal))
    (ls : List JVal) (cs ss : List (String × JVal)) (nm : String)
    (hconf : config = JVal.obj cf)
    (hl : lookupField cf "layers" = some (JVal.arr ls))
    (hc : lookupField cf "caches" = some (JVal.obj cs))
    (hs : lookupField cf "sources" = some (JVal.obj ss))
    (hwf : ∀ l ∈ ls, ∃ fs w, l = JVal.obj fs ∧ lookupField fs "name" = some w) :
    (∀ cv sv (i : Nat) (hi : i < ls.length),
        lookupField cs (nm ++ "_cache") = some cv → cv ≠ JVal.null →
        lookupField ss (nm ++ "_source") = some sv → sv ≠ JVal.null →
        pyIndex (ls.get ⟨i, hi⟩) "name" = .ok (.str nm) →
        (∀ (j : Nat) (hj : j < ls.length), j < i →
            ∃ w, pyIndex (ls.get ⟨j, hj⟩) "name" = .ok w ∧ w ≠ JVal.str nm) →
        packGet config nm =
          .ok (jsonResponse (.obj [("cache", cv), ("source", sv),
            ("layer", ls.get ⟨i, hi⟩)]), none)) ∧
    (((lookupField cs (nm ++ "_cache")).getD JVal.null = JVal.null ∨
      (lookupField ss (nm ++ "_source")).getD JVal.null = JVal.null ∨
      (∀ l ∈ ls, pyIndex l "name" ≠ .ok (.str nm))) →
      packGet config nm =
        .error (.web ("Missing '" ++ String.intercalate ", "
          ((if (lookupField cs (nm ++ "_cache")).getD JVal.null = JVal.null
              then ["cache"] else []) ++
           (if (lookupField ss (nm ++ "_source")).getD JVal.null = JVal.null
              then ["source"] else []) ++
           (if ∀ l ∈ ls, pyIndex l "name" ≠ .ok (.str nm)
              then ["layer"] else [])) ++ "'") 404)) := by
  subst hconf
  have hpy : ∀ l ∈ ls, ∃ w, pyIndex l "name" = .ok w := by
    intro l hmem
    obtain ⟨fs, w, hfs, hw⟩ := hwf l hmem
    exact ⟨w, by rw [hfs]; exact pyIndex_obj_some hw⟩
  have hloop : packGetLoop (.obj cf) nm ["cache", "source"] =
      .ok ([("cache", (lookupField cs (nm ++ "_cache")).getD JVal.null),
            ("source", (lookupField ss (nm ++ "_source")).getD JVal.null)],
        (if (lookupField cs (nm ++ "_cache")).getD JVal.null = JVal.null
            then ["cache"] else []) ++
        ((if (lookupField ss (nm ++ "_source")).getD JVal.null = JVal.null
            then ["source"] else []) ++ [])) := by
    simp [packGetLoop, caches_str, sources_str, cache_key_assoc, source_key_assoc,
      pyIndex_obj_some hc, pyIndex_obj_some hs, pyGetD]
  constructor
  · intro cv sv i hi hcv hcvne hsv hsvne hmatch hprev
    obtain ⟨fs, hfs⟩ := pyIndex_ok_is_obj hmatch
    have hfind := findLayerAux_first ls 0 i hi hmatch hprev
    have hfs2 : ls[i] = JVal.obj fs := hfs
    simp [packGet, hloop, hcv, hsv, hcvne, hsvne, find_layer, pyIndex_obj_some hl,
      asList, hfind, hfs, hfs2, setField]
  · intro hmiss
    rcases @findLayerAux_cases (JVal.str nm) ls 0 hpy with
      ⟨hfind, hnone⟩ | ⟨i, hi, hfind, hmatch⟩
    · -- no layer of that name
      have hLtrue : (∀ l ∈ ls, pyIndex l "name" ≠ Except.ok (JVal.str nm)) = True :=
        eq_true hnone
      by_cases hC : (lookupField cs (nm ++ "_cache")).getD JVal.null = JVal.null <;>
        by_cases hS : (lookupField ss (nm ++ "_source")).getD JVal.null = JVal.null <;>
          simp [packGet, hloop, find_layer, pyIndex_obj_some hl, asList, hfind,
            hC, hS, hLtrue, setField]
    · -- a layer of that name exists at index i
      have hLfalse : (∀ l ∈ ls, pyIndex l "name" ≠ Except.ok (JVal.str nm)) = False :=
        eq_false (fun hall => hall (ls.get ⟨i, hi⟩) (List.get_mem ls i hi) hmatch)
      obtain ⟨fs, hfs⟩ := pyIndex_ok_is_obj hmatch
      have hfs2 : ls[i] = JVal.obj fs := hfs
      rcases hmiss with hC | hS | hL
      · by_cases hS : (lookupField ss (nm ++ "_source")).getD JVal.null = JVal.null <;>
          simp [packGet, hloop, find_layer, pyIndex_obj_some hl, asList, hfind,
            hC, hS, hLfalse, hfs, hfs2, setField]
      · by_cases hC : (lookupField cs (nm ++ "_cache")).getD JVal.null = JVal.null <;>
          simp [packGet, hloop, find_layer, pyIndex_obj_some hl, asList, hfind,
            hC, hS, hLfalse, hfs, hfs2, setField]
      · exact absurd hL (fun hall => hall (ls.get ⟨i, hi⟩) (List.get_mem ls i hi) hmatch)

/-- C6 witness: on the document holding only the layer `foo`, the read is
refused with a message naming `cache, source` and not `layer`; on the full
document it returns the aggregate object. -/
theorem packGet_aggregates_witness :
    packGet layerOnlyDoc "foo" = .error (.web "Missing 'cache, source'" 404) ∧
    packGet fooDoc "foo" =
      .ok (jsonResponse (.obj [("cache", .obj [("sources", .arr [.str "foo_source"])]),
        ("source", .obj [("type", .str "wms")]),
        ("layer", .obj [("name", .str "foo"), ("title", .str "Foo"),
          ("sources", .arr [.str "foo_cache"])])]), none) := by
  constructor
  · have h := packGet_aggregates layerOnlyDoc
      [("layers", .arr [.obj [("name", .str "foo"), ("title", .str "Foo")]]),
       ("caches", .obj []), ("sources", .obj [])]
      [.obj [("name", .str "foo"), ("title", .str "Foo")]] [] [] "foo"
      rfl rfl rfl rfl
      (by intro l hmem; fin_cases hmem;
          exact ⟨[("name", .str "foo"), ("title", .str "Foo")], .str "foo", rfl, rfl⟩)
    have h2 := h.2 (Or.inl rfl)
    simpa using h2
  · have h := packGet_aggregates fooDoc
      [("layers", .arr [.obj [("name", .str "foo"), ("title", .str "Foo"),
          ("sources", .arr [.str "foo_cache"])]]),
       ("caches", .obj [("foo_cache", .obj [("sources", .arr [.str "foo_source"])])]),
       ("sources", .obj [("foo_source", .obj [("type", .str "wms")])])]
      [.obj [("name", .str "foo"), ("title", .str "Foo"),
          ("sources", .arr [.str "foo_cache"])]]
      [("foo_cache", .obj [("sources", .arr [.str "foo_source"])])]
      [("foo_source", .obj [("type", .str "wms")])] "foo"
      rfl rfl rfl rfl
      (by intro l hmem; fin_cases hmem;
          exact ⟨[("name", .str "foo"), ("title", .str "Foo"),
            ("sources", .arr [.str "foo_cache"])], .str "foo", rfl, rfl⟩)
    exact h.1 _ _ 0 (by decide) rfl (by decide) rfl (by decide) rfl
      (fun j hj hji => absurd hji (Nat.not_lt_zero j))

/-- Evaluation of the delete loop over `("cache", "source")` on a document
whose caches and sources entries are dicts: each part present is removed
from the working value, each part absent extends the missing list. -/
theorem deleteLoop_eval (cfX : List (String × JVal)) (cs ss : List (String × JVal))
    (nm : String) (ms0 : List String)
    (hcX : lookupField cfX "caches" = some (JVal.obj cs))
    (hsX : lookupField cfX "sources" = some (JVal.obj ss)) :
    ∃ conf2, deleteLoop nm ["cache", "source"] (.obj cfX) ms0 =
      .ok (conf2, (ms0 ++
        (if (lookupField cs (nm ++ "_cache")).isSome then [] else ["cache"])) ++
        (if (lookupField ss (nm ++ "_source")).isSome then [] else ["source"])) := by
  by_cases hCC : (lookupField cs (nm ++ "_cache")).isSome <;>
    by_cases hSS : (lookupField ss (nm ++ "_source")).isSome
  · exact ⟨.obj (setField (setField cfX "caches" (.obj (eraseField cs (nm ++ "_cache"))))
        "sources" (.obj (eraseField ss (nm ++ "_source")))), by
      simp [deleteLoop, caches_str, sources_str, cache_key_assoc, source_key_assoc,
        pyIndex, hcX, hsX, pyContains, objDel, objSet, hCC, hSS,
        lookupField_set_caches_sources]⟩
  · exact ⟨.obj (setField cfX "caches" (.obj (eraseField cs (nm ++ "_cache")))), by
      simp [deleteLoop, caches_str, sources_str, cache_key_assoc, source_key_assoc,
        pyIndex, hcX, hsX, pyContains, objDel, objSet, hCC, hSS,
        lookupField_set_caches_sources]⟩
  · exact ⟨.obj (setField cfX "sources" (.obj (eraseField ss (nm ++ "_source")))), by
      simp [deleteLoop, caches_str, sources_str, cache_key_assoc, source_key_assoc,
        pyIndex, hcX, hsX, pyContains, objDel, objSet, hCC, hSS,
        lookupField_set_caches_sources]⟩
  · exact ⟨.obj cfX, by
      simp [deleteLoop, caches_str, sources_str, cache_key_assoc, source_key_assoc,
        pyIndex, hcX, hsX, pyContains, objDel, objSet, hCC, hSS,
        lookupField_set_caches_sources]⟩

/--
C2: DELETE `/config/pack/<nm>` on a well-formed document: when any of the
three parts (the layer named `nm`, the cache key `nm_cache`, the source key
`nm_source`) is absent, it fails with a 404 client error and produces no
written document, so the persisted document and the handler's loaded
document are unchanged (the mutated working copy is discarded); when all
three are present and validation succeeds, it removes exactly those three
entries (the layer at its index, the two derived keys - every other cache
and source entry still looks up to its old value), persists the result, and
responds with an empty body.
-/
theorem packDelete_spec (v : Validator) (config : JVal) (cf : List (String × JVal))
    (ls : List JVal) (cs ss : List (String × JVal)) (nm : String)
    (hconf : config = JVal.obj cf)
    (hl : lookupField cf "layers" = some (JVal.arr ls))
    (hc : lookupField cf "caches" = some (JVal.obj cs))
    (hs : lookupField cf "sources" = some (JVal.obj ss))
    (hwf : ∀ l ∈ ls, ∃ fs w, l = JVal.obj fs ∧ lookupField fs "name" = some w) :
    (((∀ l ∈ ls, pyIndex l "name" ≠ .ok (.str nm)) ∨
      lookupField cs (nm ++ "_cache") = none ∨
      lookupField ss (nm ++ "_source") = none) →
      ∃ msg, packDelete v config nm = .error (.web msg 404)) ∧
    (∀ (i : Nat) (hi : i < ls.length) (cv sv : JVal),
      pyIndex (ls.get ⟨i, hi⟩) "name" = .ok (.str nm) →
      (∀ (j : Nat) (hj : j < ls.length), j < i →
          ∃ w, pyIndex (ls.get ⟨j, hj⟩) "name" = .ok w ∧ w ≠ JVal.str nm) →
      lookupField cs (nm ++ "_cache") = some cv →
      lookupField ss (nm ++ "_source") = some sv →
      (∀ c, validate_config v c = .ok ()) →
      packDelete v config nm =
        .ok (⟨.text "", 200, none⟩,
          some (.obj (setField (setField (setField cf "layers" (.arr (ls.eraseIdx i)))
            "caches" (.obj (eraseField cs (nm ++ "_cache"))))
            "sources" (.obj (eraseField ss (nm ++ "_source")))))) ∧
      (∀ k, k ≠ nm ++ "_cache" →
          lookupField (eraseField cs (nm ++ "_cache")) k = lookupField cs k) ∧
      (∀ k, k ≠ nm ++ "_source" →
          lookupField (eraseField ss (nm ++ "_source")) k = lookupField ss k)) := by
  subst hconf
  have hpy : ∀ l ∈ ls, ∃ w, pyIndex l "name" = .ok w := by
    intro l hmem
    obtain ⟨fs, w, hfs, hw⟩ := hwf l hmem
    exact ⟨w, by rw [hfs]; exact pyIndex_obj_some hw⟩
  constructor
  · intro hmiss
    rcases @findLayerAux_cases (JVal.str nm) ls 0 hpy with
      ⟨hfind, hnone⟩ | ⟨i, hi, hfind, hmatch⟩
    · obtain ⟨conf2, hloop⟩ := deleteLoop_eval cf cs ss nm ["layer"] hc hs
      by_cases hCC : (lookupField cs (nm ++ "_cache")).isSome <;>
        by_cases hSS : (lookupField ss (nm ++ "_source")).isSome
      · exact ⟨"Missing '" ++ String.intercalate ", " ["layer"] ++ "'", by
          simp [packDelete, find_layer, pyIndex, hl, asList, hfind, hloop, hCC, hSS]⟩
      · exact ⟨"Missing '" ++ String.intercalate ", " ["layer", "source"] ++ "'", by
          simp [packDelete, find_layer, pyIndex, hl, asList, hfind, hloop, hCC, hSS]⟩
      · exact ⟨"Missing '" ++ String.intercalate ", " ["layer", "cache"] ++ "'", by
          simp [packDelete, find_layer, pyIndex, hl, asList, hfind, hloop, hCC, hSS]⟩
      · exact ⟨"Missing '" ++ String.intercalate ", " ["layer", "cache", "source"] ++ "'", by
          simp [packDelete, find_layer, pyIndex, hl, asList, hfind, hloop, hCC, hSS]⟩
    · have hnneg : ¬ ((i : Int) < 0) := by omega
      have htn : ((i : Int)).toNat = i := by omega
      obtain ⟨conf2, hloop⟩ := deleteLoop_eval
        (setField cf "layers" (.arr (ls.eraseIdx i))) cs ss nm []
        (by rw [lookupField_set_layers_caches]; exact hc)
        (by rw [lookupField_set_layers_sources]; exact hs)
      rcases hmiss with hL | hC | hS
      · exact absurd hmatch (hL (ls.get ⟨i, hi⟩) (List.get_mem ls i hi))
      · have hCC : ¬ (lookupField cs (nm ++ "_cache")).isSome := by simp [hC]
        by_cases hSS : (lookupField ss (nm ++ "_source")).isSome
        · exact ⟨"Missing '" ++ String.intercalate ", " ["cache"] ++ "'", by
            simp [packDelete, find_layer, pyIndex, hl, asList, hfind, hnneg,
              htn, objSet, hloop, hCC, hSS]⟩
        · exact ⟨"Missing '" ++ String.intercalate ", " ["cache", "source"] ++ "'", by
            simp [packDelete, find_layer, pyIndex, hl, asList, hfind, hnneg,
              htn, objSet, hloop, hCC, hSS]⟩
      · have hSS : ¬ (lookupField ss (nm ++ "_source")).isSome := by simp [hS]
        by_cases hCC : (lookupField cs (nm ++ "_cache")).isSome
        · exact ⟨"Missing '" ++ String.intercalate ", " ["source"] ++ "'", by
            simp [packDelete, find_layer, pyIndex, hl, asList, hfind, hnneg,
              htn, objSet, hloop, hCC, hSS]⟩
        · exact ⟨"Missing '" ++ String.intercalate ", " ["cache", "source"] ++ "'", by
            simp [packDelete, find_layer, pyIndex, hl, asList, hfind, hnneg,
              htn, objSet, hloop, hCC, hSS]⟩
  · intro i hi cv sv hmatch hprev hcv hsv hval
    have hfind := findLayerAux_first ls 0 i hi hmatch hprev
    have hnneg : ¬ ((i : Int) < 0) := by omega
    have htn : ((i : Int)).toNat = i := by omega
    refine ⟨?_, fun k hk => lookupField_eraseField_ne cs _ k hk,
      fun k hk => lookupField_eraseField_ne ss _ k hk⟩
    simp [packDelete, find_layer, pyIndex_obj_some hl, asList, hfind, hnneg, htn,
      pyIndex, hl, objSet, objDel, pyContains, deleteLoop, caches_str, sources_str,
      cache_key_assoc, source_key_assoc, lookupField_set_layers_caches,
      lookupField_set_layers_sources, lookupField_set_caches_sources,
      hc, hs, hcv, hsv, hval]

/-- C2 witness: deleting `foo` from the document holding only its layer is
refused with 404; deleting it from the full document removes all three
parts and persists the emptied document with an empty response body. -/
theorem packDelete_spec_witness :
    (∃ msg, packDelete okValidator layerOnlyDoc "foo" = .error (.web msg 404)) ∧
    packDelete okValidator fooDoc "foo" =
      .ok (⟨.text "", 200, none⟩,
        some (.obj [("layers", .arr []), ("caches", .obj []), ("sources", .obj [])])) := by
  constructor
  · have h := packDelete_spec okValidator layerOnlyDoc
      [("layers", .arr [.obj [("name", .str "foo"), ("title", .str "Foo")]]),
       ("caches", .obj []), ("sources", .obj [])]
      [.obj [("name", .str "foo"), ("title", .str "Foo")]] [] [] "foo"
      rfl rfl rfl rfl
      (by intro l hmem; fin_cases hmem;
          exact ⟨[("name", .str "foo"), ("title", .str "Foo")], .str "foo", rfl, rfl⟩)
    exact h.1 (Or.inr (Or.inl rfl))
  · have h := packDelete_spec okValidator fooDoc
      [("layers", .arr [.obj [("name", .str "foo"), ("title", .str "Foo"),
          ("sources", .arr [.str "foo_cache"])]]),
       ("caches", .obj [("foo_cache", .obj [("sources", .arr [.str "foo_source"])])]),
       ("sources", .obj [("foo_source", .obj [("type", .str "wms")])])]
      [.obj [("name", .str "foo"), ("title", .str "Foo"),
          ("sources", .arr [.str "foo_cache"])]]
      [("foo_cache", .obj [("sources", .arr [.str "foo_source"])])]
      [("foo_source", .obj [("type", .str "wms")])] "foo"
      rfl rfl rfl rfl
      (by intro l hmem; fin_cases hmem;
          exact ⟨[("name", .str "foo"), ("title", .str "Foo"),
            ("sources", .arr [.str "foo_cache"])], .str "foo", rfl, rfl⟩)
    exact (h.2 0 (by decide) _ _ rfl
      (fun j hj hji => absurd hji (Nat.not_lt_zero j)) rfl rfl (fun _ => rfl)).1

end MapproxyApi
